import Mathlib

/-!
Shallow embedding of the typescript-decode library (src/index.ts): a runtime
value-validation combinator engine. JavaScript values are modelled by
`JSValue`; a decoder is a function from a value to `Except JSError JSValue`
paired with an expectation string; thrown failures are `JSError`, which is
either a `DecodeError` (the library's failure type) or an arbitrary other
JavaScript exception (`jsError`).
-/

namespace Decode

/-- The JavaScript values the decoders operate on. Numbers are modelled by
integers plus the distinguished `nan` value; the payloads of dates and the
identity of functions are irrelevant to every decoder, so dates carry an
abstract tag and functions none. Plain objects are key/value lists in
insertion order. -/
inductive JSValue where
  | null
  | undefined
  | str (s : String)
  | num (n : Int)
  | nan
  | bool (b : Bool)
  | date (t : Int)
  | obj (fields : List (String × JSValue))
  | arr (elems : List JSValue)
  | func

mutual
/-- The library's failure type: a plain message and an optional inner cause.
The inner slot holds whatever exception was caught, which in JavaScript need
not be a DecodeError. -/
inductive DecodeError where
  | mk (plain : String) (inner : Option JSError)

/-- Anything a decoder invocation can throw: the library's `DecodeError`, or
any other JavaScript exception (modelled by a name only). -/
inductive JSError where
  | decodeError (e : DecodeError)
  | jsError (name : String)
end

def DecodeError.plain_message : DecodeError → String
  | .mk m _ => m

def DecodeError.inner_error : DecodeError → Option JSError
  | .mk _ i => i

def DecodeError.message (e : DecodeError) : String :=
  "Decode Failure: " ++ e.plain_message

/-- Lodash `_.isNull`. -/
def isNull : JSValue → Bool
  | .null => true
  | _ => false

/-- Lodash `_.isUndefined`. -/
def isUndefined : JSValue → Bool
  | .undefined => true
  | _ => false

/-- Lodash `_.isString`. -/
def isString : JSValue → Bool
  | .str _ => true
  | _ => false

/-- Lodash `_.isNumber`; `NaN` is a number. -/
def isNumber : JSValue → Bool
  | .num _ => true
  | .nan => true
  | _ => false

/-- Lodash `_.isBoolean`. -/
def isBoolean : JSValue → Bool
  | .bool _ => true
  | _ => false

/-- Lodash `_.isDate`. -/
def isDate : JSValue → Bool
  | .date _ => true
  | _ => false

/-- Lodash `_.isPlainObject`. -/
def isPlainObject : JSValue → Bool
  | .obj _ => true
  | _ => false

/-- Lodash `_.isArray`. -/
def isArray : JSValue → Bool
  | .arr _ => true
  | _ => false

/-- Lodash `_.isObject`: true for plain objects, arrays, functions and dates,
false for null, undefined and primitives. -/
def isObject : JSValue → Bool
  | .obj _ => true
  | .arr _ => true
  | .func => true
  | .date _ => true
  | _ => false

/-- The JavaScript `typeof` operator. -/
def jsTypeof : JSValue → String
  | .null => "object"
  | .undefined => "undefined"
  | .str _ => "string"
  | .num _ => "number"
  | .nan => "number"
  | .bool _ => "boolean"
  | .date _ => "object"
  | .obj _ => "object"
  | .arr _ => "object"
  | .func => "function"

mutual
/-- JavaScript template-literal string conversion of a value. The conversion
of dates and functions is environment-dependent, so it is abstracted; no
decoder message in any claim depends on those two cases. -/
def jsRender : JSValue → String
  | .null => "null"
  | .undefined => "undefined"
  | .str s => s
  | .num n => toString n
  | .nan => "NaN"
  | .bool b => if b then "true" else "false"
  | .date _ => "(a date)"
  | .obj _ => "[object Object]"
  | .arr xs => String.intercalate "," (jsRenderList xs)
  | .func => "(a function)"

/-- Element renderings for the array case of `jsRender`. -/
def jsRenderList : List JSValue → List String
  | [] => []
  | x :: xs => jsRender x :: jsRenderList xs
end

/-- The source's `actualValueDescription`: a diagnostic fragment for a value,
checking null, undefined, string, number and plain object in order and
falling back to `typeof`. -/
def actualValueDescription : JSValue → String
  | .null => "null"
  | .undefined => "undefined"
  | .str s => "[" ++ s ++ "]"
  | .num n => "[" ++ toString n ++ "]"
  | .nan => "[NaN]"
  | .obj fs => "an object with the properties [" ++
      String.intercalate ", " (fs.map Prod.fst) ++ "]"
  | v => jsTypeof v

/-- The template interpolation of a possibly-null expectation string:
JavaScript renders the null expectation (of `hardcoded`) as "null". -/
def expToStr : Option String → String
  | some s => s
  | none => "null"

/-- The source's `e.plain_message || ''`: the plain message of a caught
exception, or the empty string when it is not a DecodeError. -/
def errPlainOr : JSError → String
  | .decodeError e => e.plain_message
  | .jsError _ => ""

/-- Lodash `_.has` for a plain string key on a plain object: true exactly
when the key is among the object's own keys. Lodash deep-path syntax
(dotted or bracketed paths) and array index paths are outside the model. -/
def hasProp : JSValue → String → Bool
  | .obj fs, p => fs.any (fun kv => kv.1 == p)
  | _, _ => false

/-- JavaScript bracket lookup `obj[path]` for a string key: the first field
with that key, or undefined. -/
def getProp : JSValue → String → JSValue
  | .obj fs, p =>
    match fs.find? (fun kv => kv.1 == p) with
    | some kv => kv.2
    | none => .undefined
  | _, _ => .undefined

/-- A decoder: the validation function together with its expectation string
(null for `hardcoded`). -/
structure Decoder where
  run : JSValue → Except JSError JSValue
  expectation : Option String

/-- The source's `fail`: constructs a raw DecodeError from a message. -/
def fail (message : String) : DecodeError :=
  .mk message none

/-- The source's `hardcoded`: ignores the input, returns the fixed value;
its expectation is null. -/
def hardcoded (value : JSValue) : Decoder :=
  ⟨fun _ => .ok value, none⟩

/-- The source's `nullable`: null passes through; otherwise the inner decoder
runs, and any failure is wrapped with the nullable expectation, the actual
value description, and the caught failure as the inner error. -/
def nullable (d : Decoder) : Decoder :=
  let expectation := "be null or " ++ expToStr d.expectation
  ⟨fun v =>
    if isNull v then .ok .null
    else
      match d.run v with
      | .ok r => .ok r
      | .error e => .error (.decodeError (.mk
          ("Expected the value to " ++ expectation ++ " but got " ++
            actualValueDescription v ++ ". " ++ errPlainOr e) (some e)))
  , some expectation⟩

/-- The source's `optional`: absent key or undefined value yields null;
otherwise `nullable` of the inner decoder runs on the looked-up value. -/
def optional (path : String) (d : Decoder) : Decoder :=
  ⟨fun v =>
    if !hasProp v path then .ok .null
    else
      let value := getProp v path
      if isUndefined value then .ok .null
      else (nullable d).run value
  , some (expToStr d.expectation ++ " optionally at [" ++ path ++ "]")⟩

/-- The source's `required`: missing key raises "but there was none";
otherwise the inner decoder runs on the looked-up value and any failure is
wrapped with the path, carrying the caught failure as the inner error. -/
def required (path : String) (d : Decoder) : Decoder :=
  ⟨fun v =>
    if !hasProp v path then
      .error (.decodeError (.mk
        ("Expected the value at [" ++ path ++ "] to " ++
          expToStr d.expectation ++ " but there was none.") none))
    else
      match d.run (getProp v path) with
      | .ok r => .ok r
      | .error e => .error (.decodeError (.mk
          ("Expected the value at [" ++ path ++ "] to " ++
            expToStr d.expectation ++ ". " ++ errPlainOr e) (some e)))
  , some (expToStr d.expectation ++ " at [" ++ path ++ "]")⟩

/-- Lodash `_.defaultTo`: substitutes the default for null, undefined and
NaN, and for nothing else. -/
def defaultTo (v : JSValue) (default_value : JSValue) : JSValue :=
  match v with
  | .null => default_value
  | .undefined => default_value
  | .nan => default_value
  | x => x

/-- The source's `withDefault`: runs the inner decoder and applies
`_.defaultTo` to a successful result; failures are not caught. -/
def withDefault (default_value : JSValue) (d : Decoder) : Decoder :=
  ⟨fun v =>
    match d.run v with
    | .ok r => .ok (defaultTo r default_value)
    | .error e => .error e
  , d.expectation⟩

/-- The source's `str` primitive. -/
def str : Decoder :=
  let expectation := "be a string"
  ⟨fun v =>
    if isString v then .ok v
    else .error (.decodeError (.mk
      ("Expected to " ++ expectation ++ " but got " ++
        actualValueDescription v ++ ".") none))
  , some expectation⟩

/-- The source's `date` primitive. -/
def date : Decoder :=
  let expectation := "be a date"
  ⟨fun v =>
    if isDate v then .ok v
    else .error (.decodeError (.mk
      ("Expected to " ++ expectation ++ " but got " ++
        actualValueDescription v ++ ".") none))
  , some expectation⟩

/-- The source's `bool` primitive. -/
def bool : Decoder :=
  let expectation := "be a boolean"
  ⟨fun v =>
    if isBoolean v then .ok v
    else .error (.decodeError (.mk
      ("Expected to " ++ expectation ++ " but got " ++
        actualValueDescription v ++ ".") none))
  , some expectation⟩

/-- The source's `number` primitive. -/
def number : Decoder :=
  let expectation := "be a number"
  ⟨fun v =>
    if isNumber v then .ok v
    else .error (.decodeError (.mk
      ("Expected to " ++ expectation ++ " but got " ++
        actualValueDescription v ++ ".") none))
  , some expectation⟩

/-- The source's `anyObject` primitive, gated by lodash `_.isObject`. -/
def anyObject : Decoder :=
  let expectation := "be an object"
  ⟨fun v =>
    if isObject v then .ok v
    else .error (.decodeError (.mk
      ("Expected to " ++ expectation ++ " but got " ++
        actualValueDescription v ++ ".") none))
  , some expectation⟩

/-- The element loop of `array` (`_.map` under exception semantics): decode
each element in order, propagating the first failure unmodified. -/
def decodeElems (run : JSValue → Except JSError JSValue) :
    List JSValue → Except JSError (List JSValue)
  | [] => .ok []
  | x :: xs =>
    match run x with
    | .ok r =>
      match decodeElems run xs with
      | .ok rs => .ok (r :: rs)
      | .error e => .error e
    | .error e => .error e

/-- The source's `array`: non-arrays raise; elements are decoded in order
and the first element failure propagates unmodified. -/
def array (d : Decoder) : Decoder :=
  let expectation := "be an array where each element should " ++
    expToStr d.expectation
  ⟨fun v =>
    match v with
    | .arr xs =>
      match decodeElems d.run xs with
      | .ok rs => .ok (.arr rs)
      | .error e => .error e
    | _ => .error (.decodeError (.mk
        ("Expected to " ++ expectation ++ " but got " ++
          actualValueDescription v ++ ".") none))
  , some expectation⟩

/-- The key loop of `dictionary`: decode each value in key order and report
the first failing key with the exception it raised. -/
def decodeFields (run : JSValue → Except JSError JSValue) :
    List (String × JSValue) → Except (String × JSError) (List (String × JSValue))
  | [] => .ok []
  | (k, v) :: rest =>
    match run v with
    | .ok r =>
      match decodeFields run rest with
      | .ok rs => .ok ((k, r) :: rs)
      | .error e => .error e
    | .error e => .error (k, e)

/-- The source's `dictionary`: non-plain-objects raise; values are decoded
in key order, and the first failure is reported with the failing key and the
caught failure's plain message, without forwarding it as the inner error. -/
def dictionary (d : Decoder) : Decoder :=
  let expectation := "be a dictionary object where each value should " ++
    expToStr d.expectation
  ⟨fun v =>
    match v with
    | .obj fs =>
      match decodeFields d.run fs with
      | .ok rs => .ok (.obj rs)
      | .error (k, e) => .error (.decodeError (.mk
          ("Expected the value with the key [" ++ k ++ "] to " ++
            expToStr d.expectation ++ ". " ++ errPlainOr e) none))
    | _ => .error (.decodeError (.mk
        ("Expected the value to " ++ expectation ++ " but got " ++
          actualValueDescription v ++ ".") none))
  , some expectation⟩

/-- The field loop of `object`: run each field decoder on the whole input in
declaration order; on the first failure report the failing field decoder's
expectation together with the exception it raised. -/
def decodeProps (v : JSValue) :
    List (String × Decoder) → Except (Option String × JSError) (List (String × JSValue))
  | [] => .ok []
  | (k, d) :: rest =>
    match d.run v with
    | .ok r =>
      match decodeProps v rest with
      | .ok rs => .ok ((k, r) :: rs)
      | .error e => .error e
    | .error e => .error (d.expectation, e)

/-- The catch clause of `object`: the caught exception's immediate inner
error's plain message when one exists, else its own plain message; the
JavaScript reads of `plain_message` on a non-DecodeError interpolate as
"undefined". -/
def objInnerMsg : JSError → String
  | .decodeError (.mk m none) => m
  | .decodeError (.mk _ (some (.decodeError i))) => i.plain_message
  | .decodeError (.mk _ (some (.jsError _))) => "undefined"
  | .jsError _ => "undefined"

/-- The source's `object`: every field decoder receives the entire input in
declaration order; the first failure is re-raised with the failing field
decoder's expectation and `objInnerMsg`, without an inner error. -/
def object (props : List (String × Decoder)) : Decoder :=
  let expectation := "be an object with the properties [" ++
    String.intercalate ", " (props.map Prod.fst) ++ "]"
  ⟨fun v =>
    match decodeProps v props with
    | .ok rs => .ok (.obj rs)
    | .error (exp, e) => .error (.decodeError (.mk
        ("Expected the value to " ++ expToStr exp ++ ". " ++ objInnerMsg e)
        none))
  , some expectation⟩

/-- The source's `enumeration`: non-strings and non-members raise; members
are passed to the coercion, whose own exceptions are not caught. -/
def enumeration (coerce : String → Except JSError JSValue)
    (options : List String) : Decoder :=
  let expectation := "to be one of [" ++ String.intercalate ", " options ++ "]"
  ⟨fun v =>
    match v with
    | .str s =>
      if options.contains s then coerce s
      else .error (.decodeError (.mk
        (expectation ++ " but got [" ++ s ++ "]") none))
    | _ => .error (.decodeError (.mk
        (expectation ++ " but got [" ++ jsRender v ++ "]") none))
  , some expectation⟩

/-- The source's `custom`: wraps an arbitrary function with a caller-supplied
expectation; no failure translation of any kind. -/
def custom (decoderFn : JSValue → Except JSError JSValue)
    (expectation : String) : Decoder :=
  ⟨decoderFn, some expectation⟩

/-- The source's `dependent`: run the pivot decoder on the input, select the
second decoder from the pivot, and run it on the same original input; the
expectation comes from probing the selector with null. -/
def dependent (d : Decoder) (dependentDecoder : JSValue → Decoder) : Decoder :=
  ⟨fun v =>
    match d.run v with
    | .ok pivot => (dependentDecoder pivot).run v
    | .error e => .error e
  , (dependentDecoder .null).expectation⟩

/-- The source's `withoutValidation`: the identity decoder. -/
def withoutValidation : Decoder :=
  ⟨fun v => .ok v, some "be any value"⟩

mutual
/-- Modelled from the spec words of C1 for comparison with the code: the
deepest plain message, taken from the innermost failure of the inner
chain. -/
def specDeepestPlain : DecodeError → String
  | .mk m none => m
  | .mk m (some e) => specDeepestPlainErr m e

/-- Chain step of `specDeepestPlain`: a non-DecodeError link ends the chain
at the enclosing message. -/
def specDeepestPlainErr (m : String) : JSError → String
  | .jsError _ => m
  | .decodeError i => specDeepestPlain i
end

/-- Lifts a function that can only fail with a DecodeError into the general
exception type; models a user-supplied function that never throws anything
except DecodeError. -/
def liftFn (f : JSValue → Except DecodeError JSValue) :
    JSValue → Except JSError JSValue :=
  fun v =>
    match f v with
    | .ok r => .ok r
    | .error e => .error (.decodeError e)

/-- Variant of `liftFn` for the string-domain coercion of `enumeration`. -/
def liftCoerce (f : String → Except DecodeError JSValue) :
    String → Except JSError JSValue :=
  fun s =>
    match f s with
    | .ok r => .ok r
    | .error e => .error (.decodeError e)

mutual
/-- The decoders built by composing the library's exported combinators,
where every embedded user-supplied function (the decoder function of
`custom`, the coercion of `enumeration`, the selector of `dependent`)
itself either returns a value or raises a DecodeError. -/
inductive DExpr where
  | dstr
  | dnumber
  | dbool
  | ddate
  | danyObject
  | dwithoutValidation
  | dhardcoded (v : JSValue)
  | drequired (path : String) (d : DExpr)
  | doptional (path : String) (d : DExpr)
  | dnullable (d : DExpr)
  | dwithDefault (default_value : JSValue) (d : DExpr)
  | darray (d : DExpr)
  | ddictionary (d : DExpr)
  | dobject (props : DProps)
  | denumeration (coerce : String → Except DecodeError JSValue)
      (options : List String)
  | dcustom (f : JSValue → Except DecodeError JSValue) (e : String)
  | ddependent (d : DExpr) (f : JSValue → DExpr)

/-- The field list of a composed `object` decoder. -/
inductive DProps where
  | nil
  | cons (name : String) (d : DExpr) (rest : DProps)
end

mutual
/-- Interprets a composed decoder expression as the decoder the library
builds for it. -/
def toDecoder : DExpr → Decoder
  | .dstr => str
  | .dnumber => number
  | .dbool => bool
  | .ddate => date
  | .danyObject => anyObject
  | .dwithoutValidation => withoutValidation
  | .dhardcoded v => hardcoded v
  | .drequired p d => required p (toDecoder d)
  | .doptional p d => optional p (toDecoder d)
  | .dnullable d => nullable (toDecoder d)
  | .dwithDefault dv d => withDefault dv (toDecoder d)
  | .darray d => array (toDecoder d)
  | .ddictionary d => dictionary (toDecoder d)
  | .dobject ps => object (toProps ps)
  | .denumeration c os => enumeration (liftCoerce c) os
  | .dcustom f e => custom (liftFn f) e
  | .ddependent d f => dependent (toDecoder d) (fun pivot => toDecoder (f pivot))

/-- Interprets the field list of a composed `object` decoder. -/
def toProps : DProps → List (String × Decoder)
  | .nil => []
  | .cons k d rest => (k, toDecoder d) :: toProps rest
end

/-- C9: the primitive decoders are identity pass-throughs on valid inputs:
a string decodes to itself under `str`, a number under `number`, a boolean
under `bool` and an object under `anyObject`; and there is no coercion: a
numeric string is rejected by `number`, not converted. -/
theorem primitive_identity :
    (∀ s, str.run (.str s) = .ok (.str s)) ∧
    (∀ n, number.run (.num n) = .ok (.num n)) ∧
    (∀ b, bool.run (.bool b) = .ok (.bool b)) ∧
    (∀ fs, anyObject.run (.obj fs) = .ok (.obj fs)) ∧
    (∀ s, number.run (.str s) = .error (.decodeError (.mk
      ("Expected to be a number but got " ++ ("[" ++ s ++ "]") ++ ".") none))) :=
  ⟨fun _ => rfl, fun _ => rfl, fun _ => rfl, fun _ => rfl, fun _ => rfl⟩

/-- C10: `anyObject` accepts every value satisfying the generic object test,
including arrays, functions and dates, returning the input unchanged even
though its expectation reads "be an object"; only null, undefined, strings,
numbers and booleans make it raise. -/
theorem anyObject_accepts_any_object :
    (∀ xs, anyObject.run (.arr xs) = .ok (.arr xs)) ∧
    (anyObject.run .func = .ok .func) ∧
    (∀ fs, anyObject.run (.obj fs) = .ok (.obj fs)) ∧
    (∀ t, anyObject.run (.date t) = .ok (.date t)) ∧
    anyObject.expectation = some "be an object" ∧
    (anyObject.run .null = .error (.decodeError (.mk
      "Expected to be an object but got null." none))) ∧
    (anyObject.run .undefined = .error (.decodeError (.mk
      "Expected to be an object but got undefined." none))) ∧
    (∀ s, anyObject.run (.str s) = .error (.decodeError (.mk
      ("Expected to be an object but got " ++ ("[" ++ s ++ "]") ++ ".") none))) ∧
    (∀ n, anyObject.run (.num n) = .error (.decodeError (.mk
      ("Expected to be an object but got " ++ ("[" ++ toString n ++ "]") ++ ".") none))) ∧
    (anyObject.run .nan = .error (.decodeError (.mk
      "Expected to be an object but got [NaN]." none))) ∧
    (∀ b, anyObject.run (.bool b) = .error (.decodeError (.mk
      "Expected to be an object but got boolean." none))) :=
  ⟨fun _ => rfl, rfl, fun _ => rfl, fun _ => rfl, rfl, rfl, rfl,
    fun _ => rfl, fun _ => rfl, rfl, fun _ => rfl⟩

/-- C3: `required` raises the "but there was none" failure without an inner
error when the key is absent; when the key is present it runs the inner
decoder on the looked-up value, passing a success through, and wraps a
failure with the path, the inner decoder's expectation and the inner plain
message, keeping the caught failure as the inner error. -/
theorem required_contract (p : String) (d : Decoder) (o : JSValue) :
    (hasProp o p = false →
      (required p d).run o = .error (.decodeError (.mk
        ("Expected the value at [" ++ p ++ "] to " ++ expToStr d.expectation ++
          " but there was none.") none))) ∧
    (∀ r, hasProp o p = true → d.run (getProp o p) = .ok r →
      (required p d).run o = .ok r) ∧
    (∀ de, hasProp o p = true → d.run (getProp o p) = .error (.decodeError de) →
      (required p d).run o = .error (.decodeError (.mk
        ("Expected the value at [" ++ p ++ "] to " ++ expToStr d.expectation ++
          ". " ++ de.plain_message) (some (.decodeError de))))) := by
  refine ⟨fun h => ?_, fun r h1 h2 => ?_, fun de h1 h2 => ?_⟩
  · simp [required, h]
  · simp [required, h1, h2]
  · simp [required, h1, h2, errPlainOr]

/-- Closed instance of `required_contract`: the absent, valid and invalid
key cases at concrete inputs. -/
theorem required_contract_witness :
    (required "id" number).run (JSValue.obj [("name", JSValue.str "tester")]) =
      .error (.decodeError (.mk
        "Expected the value at [id] to be a number but there was none." none)) ∧
    (required "id" number).run (JSValue.obj [("id", JSValue.num 42)]) =
      .ok (JSValue.num 42) ∧
    (required "id" number).run (JSValue.obj [("id", JSValue.str "bad")]) =
      .error (.decodeError (.mk
        "Expected the value at [id] to be a number. Expected to be a number but got [bad]."
        (some (.decodeError (.mk "Expected to be a number but got [bad]." none))))) :=
  ⟨(required_contract "id" number (JSValue.obj [("name", JSValue.str "tester")])).1 rfl,
   (required_contract "id" number (JSValue.obj [("id", JSValue.num 42)])).2.1
     (JSValue.num 42) rfl rfl,
   (required_contract "id" number (JSValue.obj [("id", JSValue.str "bad")])).2.2
     (.mk "Expected to be a number but got [bad]." none) rfl rfl⟩

/-- C5: `nullable` maps the null input to null without consulting the inner
decoder, passes a success of the inner decoder through on any other input,
and wraps an inner failure with the "be null or" expectation, the actual
value description and the inner plain message, keeping the caught failure
as the inner error. -/
theorem nullable_contract (d : Decoder) :
    ((nullable d).run .null = .ok .null) ∧
    (∀ v r, isNull v = false → d.run v = .ok r → (nullable d).run v = .ok r) ∧
    (∀ v de, isNull v = false → d.run v = .error (.decodeError de) →
      (nullable d).run v = .error (.decodeError (.mk
        ("Expected the value to " ++ ("be null or " ++ expToStr d.expectation) ++
          " but got " ++ actualValueDescription v ++ ". " ++ de.plain_message)
        (some (.decodeError de))))) := by
  refine ⟨rfl, fun v r h1 h2 => ?_, fun v de h1 h2 => ?_⟩
  · simp [nullable, h1, h2]
  · simp [nullable, h1, h2, errPlainOr]

/-- Closed instance of `nullable_contract`: null passes through, a valid
string passes through, and a number input raises the failure mentioning
"be null or be a string". -/
theorem nullable_contract_witness :
    (nullable str).run .null = .ok .null ∧
    (nullable str).run (JSValue.str "x") = .ok (JSValue.str "x") ∧
    (nullable str).run (JSValue.num 5) = .error (.decodeError (.mk
      "Expected the value to be null or be a string but got [5]. Expected to be a string but got [5]."
      (some (.decodeError (.mk "Expected to be a string but got [5]." none))))) :=
  ⟨(nullable_contract str).1,
   (nullable_contract str).2.1 (JSValue.str "x") (JSValue.str "x") rfl rfl,
   (nullable_contract str).2.2 (JSValue.num 5)
     (.mk "Expected to be a string but got [5]." none) rfl rfl⟩

/-- C6: `optional` returns null without running the inner decoder when the
key is absent, and likewise when the key is present but holds undefined;
otherwise its result is exactly the result of `nullable` of the inner
decoder on the looked-up value. -/
theorem optional_contract (p : String) (d : Decoder) (o : JSValue) :
    (hasProp o p = false → (optional p d).run o = .ok .null) ∧
    (hasProp o p = true → getProp o p = .undefined →
      (optional p d).run o = .ok .null) ∧
    (hasProp o p = true → isUndefined (getProp o p) = false →
      (optional p d).run o = (nullable d).run (getProp o p)) := by
  refine ⟨fun h => ?_, fun h1 h2 => ?_, fun h1 h2 => ?_⟩
  · simp [optional, h]
  · simp [optional, h1, h2, isUndefined]
  · simp [optional, h1, h2]

/-- Closed instance of `optional_contract`: an object lacking the key and an
object holding undefined at the key both yield null; a present value is
decoded through `nullable`. -/
theorem optional_contract_witness :
    (optional "x" str).run (JSValue.obj [("y", JSValue.num 1)]) = .ok .null ∧
    (optional "x" str).run (JSValue.obj [("x", JSValue.undefined)]) = .ok .null ∧
    (optional "x" str).run (JSValue.obj [("x", JSValue.str "hi")]) =
      (nullable str).run (JSValue.str "hi") ∧
    (nullable str).run (JSValue.str "hi") = .ok (JSValue.str "hi") :=
  ⟨(optional_contract "x" str _).1 rfl,
   (optional_contract "x" str _).2.1 rfl rfl,
   (optional_contract "x" str _).2.2 rfl rfl,
   rfl⟩

/-- C8: `dependent` first decodes the pivot from the input, then selects the
second decoder from the pivot, then applies that second decoder to the same
original input, returning its result. -/
theorem dependent_contract (d : Decoder) (f : JSValue → Decoder)
    (v pivot : JSValue) (h : d.run v = .ok pivot) :
    (dependent d f).run v = (f pivot).run v := by
  simp [dependent, h]

/-- Closed instance of `dependent_contract`: after decoding the tag field as
the pivot, the selected decoder reads a different field of the same
original input, showing it sees the whole input and not the pivot. -/
theorem dependent_contract_witness :
    (dependent (required "tag" str) (fun _ => required "x" number)).run
      (JSValue.obj [("tag", JSValue.str "t"), ("x", JSValue.num 1)]) =
      (required "x" number).run
        (JSValue.obj [("tag", JSValue.str "t"), ("x", JSValue.num 1)]) ∧
    (required "x" number).run
        (JSValue.obj [("tag", JSValue.str "t"), ("x", JSValue.num 1)]) =
      .ok (JSValue.num 1) :=
  ⟨dependent_contract _ _ _ (JSValue.str "t") rfl, rfl⟩

theorem decodeProps_first_error (v : JSValue) (pre post : List (String × Decoder))
    (k : String) (d : Decoder) (e : JSError)
    (hpre : ∀ p ∈ pre, ∃ r, p.2.run v = .ok r) (hd : d.run v = .error e) :
    decodeProps v (pre ++ (k, d) :: post) = .error (d.expectation, e) := by
  induction pre with
  | nil => simp [decodeProps, hd]
  | cons q tl ih =>
    obtain ⟨k0, d0⟩ := q
    obtain ⟨r, hr⟩ := hpre (k0, d0) (List.mem_cons_self _ _)
    have hr0 : d0.run v = .ok r := hr
    have ih0 := ih (fun q hq => hpre q (List.mem_cons_of_mem _ hq))
    simp [decodeProps, hr0, ih0]

/-- C1 (amended): `object` evaluates the field decoders in declaration order
on the whole input; when the first failing field decoder raises, the object
decoder raises a DecodeError without an inner error whose plain message is
"Expected the value to <failing field decoder expectation>. <m>", where m is
the immediate inner failure's plain message when the raised failure carries
an inner error, and otherwise the raised failure's own plain message. -/
theorem object_first_failure_message (pre post : List (String × Decoder))
    (k : String) (d : Decoder) (v : JSValue) (e : JSError)
    (hpre : ∀ p ∈ pre, ∃ r, p.2.run v = .ok r)
    (hd : d.run v = .error e) :
    (object (pre ++ (k, d) :: post)).run v = .error (.decodeError (.mk
      ("Expected the value to " ++ expToStr d.expectation ++ ". " ++
        (match e with
         | .decodeError (.mk m none) => m
         | .decodeError (.mk _ (some (.decodeError i))) => i.plain_message
         | _ => "undefined"))
      none)) := by
  have h := decodeProps_first_error v pre post k d e hpre hd
  rcases e with de | s
  · rcases de with ⟨m, i⟩
    rcases i with _ | ie
    · simp [object, h, objInnerMsg]
    · rcases ie with ide | s0
      · simp [object, h, objInnerMsg]
      · simp [object, h, objInnerMsg]
  · simp [object, h, objInnerMsg]

/-- Closed instance of `object_first_failure_message`: the spec's
missing-required-field scenario, reproducing its exact message. -/
theorem object_first_failure_message_witness :
    (object [("name", required "name" str), ("id", required "id" number)]).run
      (JSValue.obj [("name", JSValue.str "tester")]) =
    .error (.decodeError (.mk
      "Expected the value to be a number at [id]. Expected the value at [id] to be a number but there was none."
      none)) :=
  object_first_failure_message [("name", required "name" str)] []
    "id" (required "id" number) (JSValue.obj [("name", JSValue.str "tester")])
    (.decodeError (.mk
      "Expected the value at [id] to be a number but there was none." none))
    (by
      intro p hp
      rw [List.mem_singleton] at hp
      subst hp
      exact ⟨JSValue.str "tester", rfl⟩)
    rfl

/-- C1 is refuted at chain depth three: the failing field decoder
`required "x" (nullable number)` raises a failure whose inner chain has two
links, the deepest plain message along that chain is the number primitive's
message, yet the object decoder's plain message appends the immediate inner
message instead of the deepest one. -/
theorem object_deepest_message_counterexample :
    ((required "x" (nullable number)).run (JSValue.obj [("x", JSValue.str "foo")]) =
      .error (.decodeError (.mk
        "Expected the value at [x] to be null or be a number. Expected the value to be null or be a number but got [foo]. Expected to be a number but got [foo]."
        (some (.decodeError (.mk
          "Expected the value to be null or be a number but got [foo]. Expected to be a number but got [foo]."
          (some (.decodeError (.mk
            "Expected to be a number but got [foo]." none))))))))) ∧
    specDeepestPlain (.mk
        "Expected the value at [x] to be null or be a number. Expected the value to be null or be a number but got [foo]. Expected to be a number but got [foo]."
        (some (.decodeError (.mk
          "Expected the value to be null or be a number but got [foo]. Expected to be a number but got [foo]."
          (some (.decodeError (.mk
            "Expected to be a number but got [foo]." none))))))) =
      "Expected to be a number but got [foo]." ∧
    ((object [("x", required "x" (nullable number))]).run
        (JSValue.obj [("x", JSValue.str "foo")]) =
      .error (.decodeError (.mk
        "Expected the value to be null or be a number at [x]. Expected the value to be null or be a number but got [foo]. Expected to be a number but got [foo]."
        none))) ∧
    "Expected the value to be null or be a number at [x]. Expected the value to be null or be a number but got [foo]. Expected to be a number but got [foo]." ≠
      "Expected the value to " ++
        expToStr (required "x" (nullable number)).expectation ++ ". " ++
        "Expected to be a number but got [foo]." :=
  ⟨rfl, rfl, rfl, by decide⟩

theorem decodeFields_first_error (run : JSValue → Except JSError JSValue)
    (pre post : List (String × JSValue)) (k : String) (x : JSValue) (e : JSError)
    (hpre : ∀ p ∈ pre, ∃ r, run p.2 = .ok r) (hx : run x = .error e) :
    decodeFields run (pre ++ (k, x) :: post) = .error (k, e) := by
  induction pre with
  | nil => simp [decodeFields, hx]
  | cons q tl ih =>
    obtain ⟨k0, v0⟩ := q
    obtain ⟨r, hr⟩ := hpre (k0, v0) (List.mem_cons_self _ _)
    have hr0 : run v0 = .ok r := hr
    have ih0 := ih (fun q hq => hpre q (List.mem_cons_of_mem _ hq))
    simp [decodeFields, hr0, ih0]

/-- C4: when the first failing value of a plain-object input sits at key k,
`dictionary` raises a DecodeError whose plain message names k, the inner
decoder's expectation and the inner failure's plain message, and whose inner
error slot is empty: the caught failure is not forwarded. -/
theorem dictionary_failure_message (d : Decoder)
    (pre post : List (String × JSValue)) (k : String) (x : JSValue)
    (de : DecodeError)
    (hpre : ∀ p ∈ pre, ∃ r, d.run p.2 = .ok r)
    (hx : d.run x = .error (.decodeError de)) :
    (dictionary d).run (JSValue.obj (pre ++ (k, x) :: post)) =
      .error (.decodeError (.mk
        ("Expected the value with the key [" ++ k ++ "] to " ++
          expToStr d.expectation ++ ". " ++ de.plain_message) none)) := by
  have h := decodeFields_first_error d.run pre post k x (.decodeError de) hpre hx
  simp [dictionary, h, errPlainOr]

/-- Closed instance of `dictionary_failure_message`: the second value of a
two-key object fails, and the raised failure names that key and carries no
inner error. -/
theorem dictionary_failure_message_witness :
    (dictionary number).run
      (JSValue.obj [("a", JSValue.num 1), ("b", JSValue.str "x")]) =
    .error (.decodeError (.mk
      "Expected the value with the key [b] to be a number. Expected to be a number but got [x]."
      none)) :=
  dictionary_failure_message number [("a", JSValue.num 1)] [] "b"
    (JSValue.str "x") (.mk "Expected to be a number but got [x]." none)
    (by
      intro p hp
      rw [List.mem_singleton] at hp
      subst hp
      exact ⟨JSValue.num 1, rfl⟩)
    rfl

/-- C7 (amended): `withDefault` substitutes the default exactly when the
inner decoder succeeds with null, undefined or NaN; every other successful
result passes through unchanged, and a raised failure propagates out of
`withDefault` unmodified. -/
theorem withDefault_contract (default_value : JSValue) (d : Decoder) (v : JSValue) :
    (d.run v = .ok .null → (withDefault default_value d).run v = .ok default_value) ∧
    (d.run v = .ok .undefined → (withDefault default_value d).run v = .ok default_value) ∧
    (d.run v = .ok .nan → (withDefault default_value d).run v = .ok default_value) ∧
    (∀ r, d.run v = .ok r → r ≠ .null → r ≠ .undefined → r ≠ .nan →
      (withDefault default_value d).run v = .ok r) ∧
    (∀ e, d.run v = .error e → (withDefault default_value d).run v = .error e) := by
  refine ⟨fun h => ?_, fun h => ?_, fun h => ?_, fun r h hn hu hx => ?_, fun e h => ?_⟩
  · simp [withDefault, h, defaultTo]
  · simp [withDefault, h, defaultTo]
  · simp [withDefault, h, defaultTo]
  · cases r <;> simp [withDefault, h, defaultTo] <;> simp_all
  · simp [withDefault, h]

/-- Closed instance of `withDefault_contract`: a null result is replaced by
the default, a genuine value passes through, and a failure of the inner
decoder propagates unchanged. -/
theorem withDefault_contract_witness :
    (withDefault (JSValue.num 7) (hardcoded .null)).run .null = .ok (JSValue.num 7) ∧
    (withDefault (JSValue.num 7) (hardcoded (JSValue.num 5))).run .null =
      .ok (JSValue.num 5) ∧
    (withDefault (JSValue.num 7) str).run (JSValue.num 3) =
      .error (.decodeError (.mk "Expected to be a string but got [3]." none)) :=
  ⟨(withDefault_contract (JSValue.num 7) (hardcoded .null) .null).1 rfl,
   (withDefault_contract (JSValue.num 7) (hardcoded (JSValue.num 5)) .null).2.2.2.1
     (JSValue.num 5) rfl (by simp) (by simp) (by simp),
   (withDefault_contract (JSValue.num 7) str (JSValue.num 3)).2.2.2.2
     (.decodeError (.mk "Expected to be a string but got [3]." none)) rfl⟩

/-- C7 is refuted by a NaN result: lodash defaultTo also substitutes the
default for NaN, which is a successful result that is neither absent nor
null. -/
theorem withDefault_nan_counterexample :
    (hardcoded JSValue.nan).run .null = .ok JSValue.nan ∧
    (withDefault (JSValue.num 0) (hardcoded JSValue.nan)).run .null =
      .ok (JSValue.num 0) ∧
    JSValue.nan ≠ JSValue.null ∧ JSValue.nan ≠ JSValue.undefined :=
  ⟨rfl, rfl, by simp, by simp⟩

theorem str_no_jsError (v : JSValue) (s : String) :
    str.run v ≠ .error (.jsError s) := by
  intro h
  simp only [str] at h
  split at h <;> simp_all

theorem number_no_jsError (v : JSValue) (s : String) :
    number.run v ≠ .error (.jsError s) := by
  intro h
  simp only [number] at h
  split at h <;> simp_all

theorem bool_no_jsError (v : JSValue) (s : String) :
    bool.run v ≠ .error (.jsError s) := by
  intro h
  simp only [bool] at h
  split at h <;> simp_all

theorem date_no_jsError (v : JSValue) (s : String) :
    date.run v ≠ .error (.jsError s) := by
  intro h
  simp only [date] at h
  split at h <;> simp_all

theorem anyObject_no_jsError (v : JSValue) (s : String) :
    anyObject.run v ≠ .error (.jsError s) := by
  intro h
  simp only [anyObject] at h
  split at h <;> simp_all

theorem withoutValidation_no_jsError (v : JSValue) (s : String) :
    withoutValidation.run v ≠ .error (.jsError s) := by
  intro h
  simp [withoutValidation] at h

theorem hardcoded_no_jsError (x v : JSValue) (s : String) :
    (hardcoded x).run v ≠ .error (.jsError s) := by
  intro h
  simp [hardcoded] at h

theorem required_no_jsError (p : String) (d : Decoder) (v : JSValue) (s : String) :
    (required p d).run v ≠ .error (.jsError s) := by
  intro h
  simp only [required] at h
  split at h
  · simp_all
  · split at h <;> simp_all

theorem nullable_no_jsError (d : Decoder) (v : JSValue) (s : String) :
    (nullable d).run v ≠ .error (.jsError s) := by
  intro h
  simp only [nullable] at h
  split at h
  · simp_all
  · split at h <;> simp_all

theorem optional_no_jsError (p : String) (d : Decoder) (v : JSValue) (s : String) :
    (optional p d).run v ≠ .error (.jsError s) := by
  intro h
  simp only [optional] at h
  split at h
  · simp_all
  · split at h
    · simp_all
    · exact nullable_no_jsError d (getProp v p) s h

theorem dictionary_no_jsError (d : Decoder) (v : JSValue) (s : String) :
    (dictionary d).run v ≠ .error (.jsError s) := by
  intro h
  simp only [dictionary] at h
  split at h
  · split at h <;> simp_all
  · simp_all

theorem object_no_jsError (props : List (String × Decoder)) (v : JSValue)
    (s : String) : (object props).run v ≠ .error (.jsError s) := by
  intro h
  simp only [object] at h
  split at h <;> simp_all

theorem enumeration_lift_no_jsError (c : String → Except DecodeError JSValue)
    (os : List String) (v : JSValue) (s : String) :
    (enumeration (liftCoerce c) os).run v ≠ .error (.jsError s) := by
  intro h
  simp only [enumeration] at h
  split at h
  · split at h
    · simp only [liftCoerce] at h
      split at h <;> simp_all
    · simp_all
  · simp_all

theorem custom_lift_no_jsError (f : JSValue → Except DecodeError JSValue)
    (e : String) (v : JSValue) (s : String) :
    (custom (liftFn f) e).run v ≠ .error (.jsError s) := by
  intro h
  simp only [custom, liftFn] at h
  split at h <;> simp_all

theorem decodeElems_no_jsError (run : JSValue → Except JSError JSValue)
    (hrun : ∀ x s, run x ≠ .error (.jsError s)) :
    ∀ (xs : List JSValue) (s : String),
      decodeElems run xs ≠ .error (.jsError s) := by
  intro xs
  induction xs with
  | nil => intro s h; simp [decodeElems] at h
  | cons x tl ih =>
    intro s h
    simp only [decodeElems] at h
    split at h
    · split at h
      · simp_all
      · next e0 heq =>
          injection h with h2
          subst h2
          exact ih s heq
    · next e0 heq =>
        injection h with h2
        subst h2
        exact hrun x s heq

theorem array_no_jsError (d : Decoder)
    (hd : ∀ x s, d.run x ≠ .error (.jsError s)) (v : JSValue) (s : String) :
    (array d).run v ≠ .error (.jsError s) := by
  intro h
  simp only [array] at h
  split at h
  · split at h
    · simp_all
    · next e0 heq =>
        injection h with h2
        subst h2
        exact decodeElems_no_jsError d.run hd _ s heq
  · simp_all

theorem withDefault_no_jsError (dv : JSValue) (d : Decoder) (v : JSValue)
    (s : String) (hd : ∀ t, d.run v ≠ .error (.jsError t)) :
    (withDefault dv d).run v ≠ .error (.jsError s) := by
  intro h
  simp only [withDefault] at h
  split at h
  · simp_all
  · next e0 heq =>
      injection h with h2
      subst h2
      exact hd s heq

theorem dependent_no_jsError (d : Decoder) (f : JSValue → Decoder) (v : JSValue)
    (s : String) (hd : ∀ t, d.run v ≠ .error (.jsError t))
    (hf : ∀ pivot t, (f pivot).run v ≠ .error (.jsError t)) :
    (dependent d f).run v ≠ .error (.jsError s) := by
  intro h
  simp only [dependent] at h
  split at h
  · next pivot heq => exact hf pivot s h
  · next e0 heq =>
      injection h with h2
      subst h2
      exact hd s heq

theorem toDecoder_no_jsError : ∀ (d : DExpr) (v : JSValue) (s : String),
    (toDecoder d).run v ≠ .error (.jsError s)
  | .dstr, v, s => by simp only [toDecoder]; exact str_no_jsError v s
  | .dnumber, v, s => by simp only [toDecoder]; exact number_no_jsError v s
  | .dbool, v, s => by simp only [toDecoder]; exact bool_no_jsError v s
  | .ddate, v, s => by simp only [toDecoder]; exact date_no_jsError v s
  | .danyObject, v, s => by simp only [toDecoder]; exact anyObject_no_jsError v s
  | .dwithoutValidation, v, s => by
      simp only [toDecoder]; exact withoutValidation_no_jsError v s
  | .dhardcoded x, v, s => by simp only [toDecoder]; exact hardcoded_no_jsError x v s
  | .drequired p d, v, s => by
      simp only [toDecoder]; exact required_no_jsError p (toDecoder d) v s
  | .doptional p d, v, s => by
      simp only [toDecoder]; exact optional_no_jsError p (toDecoder d) v s
  | .dnullable d, v, s => by
      simp only [toDecoder]; exact nullable_no_jsError (toDecoder d) v s
  | .dwithDefault dv d, v, s => by
      simp only [toDecoder]
      exact withDefault_no_jsError dv (toDecoder d) v s
        (fun t => toDecoder_no_jsError d v t)
  | .darray d, v, s => by
      simp only [toDecoder]
      exact array_no_jsError (toDecoder d)
        (fun x t => toDecoder_no_jsError d x t) v s
  | .ddictionary d, v, s => by
      simp only [toDecoder]; exact dictionary_no_jsError (toDecoder d) v s
  | .dobject ps, v, s => by
      simp only [toDecoder]; exact object_no_jsError (toProps ps) v s
  | .denumeration c os, v, s => by
      simp only [toDecoder]; exact enumeration_lift_no_jsError c os v s
  | .dcustom f e, v, s => by
      simp only [toDecoder]; exact custom_lift_no_jsError f e v s
  | .ddependent d f, v, s => by
      simp only [toDecoder]
      exact dependent_no_jsError (toDecoder d)
        (fun pivot => toDecoder (f pivot)) v s
        (fun t => toDecoder_no_jsError d v t)
        (fun pivot t => toDecoder_no_jsError (f pivot) v t)

/-- C2 (amended): every decoder built by composing the library's exported
combinators, in which every embedded user-supplied function itself either
returns a value or raises a DecodeError, either returns a value or raises
exactly one DecodeError on every input: it never raises a failure of any
other kind. -/
theorem composed_decoder_ok_or_decode_error (d : DExpr) (v : JSValue) :
    (∃ x, (toDecoder d).run v = .ok x) ∨
    (∃ e, (toDecoder d).run v = .error (.decodeError e)) := by
  cases h : (toDecoder d).run v with
  | ok x => exact Or.inl ⟨x, rfl⟩
  | error e =>
    cases e with
    | decodeError de => exact Or.inr ⟨de, rfl⟩
    | jsError s => exact absurd h (toDecoder_no_jsError d v s)

/-- C2 is refuted for `custom`: the library applies no failure translation
to the wrapped function, so a custom decoder whose function throws a
non-DecodeError exception lets that foreign failure escape unchanged. -/
theorem custom_raises_non_decode_error :
    (custom (fun _ => .error (.jsError "TypeError")) "be impossible").run
      JSValue.null = .error (.jsError "TypeError") := rfl

end Decode
